import Mathlib

/-!
Shallow embedding of the `cnn` package (files `cnn/builder.py` and
`cnn/simple_model.py`): a builder object that threads a cursor
(current tensor, channel count) through layer-construction calls into a
wrapped tensor framework, plus one fixed model.  Tensors are embedded as
symbolic expression trees recording every framework call together with the
exact parameters the Python code passes; builder methods become explicit
state-passing functions; Python exceptions become `Except`.
-/

namespace ConvNets

/-- A framework data type; only its floating-point flag is inspected by the
code under study (`data_type.is_floating`). -/
structure DataType where
  is_floating : Bool
deriving DecidableEq

/-- Variable initializers produced by the framework constructors used in
`_initializer`: `tf.random_uniform_initializer(lo, hi, dtype)` and
`tf.zeros_initializer(dtype)`. -/
inductive Initializer where
  | randomUniform (lo hi : ℝ) (dtype : DataType)
  | zeros (dtype : DataType)

/-- Python exceptions that the embedded code can raise: a failed lookup in a
dict literal raises `KeyError(key)`. -/
inductive PyErr where
  | keyError (key : String)
deriving DecidableEq

/-- Symbolic tensor expressions.  Each constructor records one framework call
(or Python value) with the parameters the builder passes to it. -/
inductive Tensor where
  | input (shape : List Int)
  | getVariable (name : String) (shape : List Int) (dtype : DataType)
      (init : Initializer)
  | pyTypeError (msg : String)
  | conv2d (inp filt : Tensor) (strides : List Int)
      (padding data_format : String)
  | bias_add (value biases : Tensor) (data_format : String)
  | relu (t : Tensor)
  | sigmoid (t : Tensor)
  | softmax (t : Tensor)
  | tanh (t : Tensor)
  | matmul (a b : Tensor)
  | add (a b : Tensor)
  | dropoutT (t : Tensor) (keep_prob : ℚ) (name : String)
  | max_pool (t : Tensor) (window strides : List Int)
      (padding data_format name : String)
  | lrn (t : Tensor) (depth_radius bias alpha beta : Option ℚ) (name : String)
  | reshapeT (t : Tensor) (shape : List Int) (name : String)

/-- Embedding of `_activation(input_tensor, method)`: a falsy method
(`None` or the empty string) is replaced by `'linear'`, then the method is
looked up in the dict of five activations; a missing key raises `KeyError`. -/
def _activation (input_tensor : Tensor) (method : Option String) :
    Except PyErr Tensor :=
  let m := match method with
    | none => "linear"
    | some s => if s = "" then "linear" else s
  if m = "linear" then .ok input_tensor
  else if m = "relu" then .ok (.relu input_tensor)
  else if m = "sigmoid" then .ok (.sigmoid input_tensor)
  else if m = "softmax" then .ok (.softmax input_tensor)
  else if m = "tanh" then .ok (.tanh input_tensor)
  else .error (.keyError m)

/-- Embedding of `_initializer(shape, data_type, method)`.  Python's negative
indices become index arithmetic: `shape[-1]` is `shape.getD (len-1) 0`,
`shape[-2]` is `shape.getD (len-2) 0`, `shape[:-2]` is `shape.take (len-2)`;
the `for` loop multiplying `fan_in` and `fan_out` by each leading dimension is
a `foldl`.  `gu_val = (6 / (fan_in + fan_out)) ** 0.5` becomes `Real.sqrt`.
A falsy method is replaced by `'zeros'`; an unknown key raises `KeyError`. -/
noncomputable def _initializer (shape : List Int) (data_type : DataType)
    (method : Option String) : Except PyErr Initializer :=
  let fan_in0 : Int :=
    if shape.length > 1 then shape.getD (shape.length - 2) 0
    else shape.getD (shape.length - 1) 0
  let fan_out0 : Int := shape.getD (shape.length - 1) 0
  let fan_in := (shape.take (shape.length - 2)).foldl (· * ·) fan_in0
  let fan_out := (shape.take (shape.length - 2)).foldl (· * ·) fan_out0
  let gu_val : ℝ := Real.sqrt (6 / (((fan_in + fan_out : Int) : ℝ)))
  let m := match method with
    | none => "zeros"
    | some s => if s = "" then "zeros" else s
  if m = "glorot_uniform" then
    .ok (.randomUniform (-gu_val) gu_val data_type)
  else if m = "zeros" then .ok (.zeros data_type)
  else .error (.keyError m)

/-- Embedding of `cnn_variable(name, shape, init_method, data_type)`.  Note
that on a non-floating data type the Python code RETURNS (not raises) a
`TypeError` object, so the embedded function yields `.ok (.pyTypeError _)`;
otherwise it builds the initializer and calls `tf.get_variable`. -/
noncomputable def cnn_variable (name : String) (shape : List Int)
    (init_method : Option String) (data_type : DataType) :
    Except PyErr Tensor :=
  if ¬ data_type.is_floating then
    .ok (.pyTypeError "Variables must be initialized as floating point.")
  else do
    let init ← _initializer shape data_type init_method
    .ok (.getVariable name shape data_type init)

/-- Mutable state of a `CNNBuilder` object.  `layer_counts` embeds the
`defaultdict(int)` as a total function defaulting to 0. -/
structure CNNBuilder where
  top_layer : Tensor
  num_top_channels : Int
  is_train_phase : Bool
  padding_mode : String
  data_format : String
  data_type : DataType
  layer_counts : String → Nat

/-- Embedding of `CNNBuilder.__init__`; in Python `padding_mode`,
`data_format` and `data_type` default to `'SAME'`, `'NCHW'` and
`tf.float32`. -/
def CNNBuilder.init (input_layer : Tensor) (num_input_channels : Int)
    (is_train_phase : Bool) (padding_mode data_format : String)
    (data_type : DataType) : CNNBuilder :=
  { top_layer := input_layer
    num_top_channels := num_input_channels
    is_train_phase := is_train_phase
    padding_mode := padding_mode
    data_format := data_format
    data_type := data_type
    layer_counts := fun _ => 0 }

/-- Embedding of `CNNBuilder._get_name(self, prefix)`: formats the name from
the current count for the given name stem (`'{0:s}{1:d}'.format` is string
append of the decimal representation) and then increments that count. -/
def _get_name (s : CNNBuilder) (pfx : String) : String × CNNBuilder :=
  let name := pfx ++ Nat.repr (s.layer_counts pfx)
  (name,
    { s with layer_counts :=
        fun p => if p = pfx then s.layer_counts pfx + 1 else s.layer_counts p })

/-- Embedding of `CNNBuilder.add_layer(self, layer, num_layer_channels)`. -/
def add_layer (s : CNNBuilder) (layer : Tensor) (num_layer_channels : Int) :
    (Tensor × Int) × CNNBuilder :=
  let s := { s with top_layer := layer, num_top_channels := num_layer_channels }
  ((s.top_layer, s.num_top_channels), s)

/-- Embedding of `CNNBuilder.convolution`.  Python defaults are
`vertical_stride=1`, `horizontal_stride=1`, `activation_method='relu'`;
call sites of the embedding pass these explicitly.  The stride reordering is
the source's `strides = [strides[0], strides[3], strides[1], strides[2]]`
applied when `data_format == 'NCHW'`. -/
noncomputable def convolution (s : CNNBuilder)
    (num_out_channels filter_height filter_width : Int)
    (vertical_stride horizontal_stride : Int)
    (activation_method : Option String) :
    Except PyErr ((Tensor × Int) × CNNBuilder) := do
  let (_name, s) := _get_name s "conv"
  let filter_shape : List Int :=
    [filter_height, filter_width, s.num_top_channels, num_out_channels]
  let filt ← cnn_variable "filter" filter_shape (some "glorot_uniform")
    s.data_type
  let strides : List Int := [1, vertical_stride, horizontal_stride, 1]
  let strides :=
    if s.data_format = "NCHW" then
      [strides.getD 0 0, strides.getD 3 0, strides.getD 1 0, strides.getD 2 0]
    else strides
  let conv := Tensor.conv2d s.top_layer filt strides s.padding_mode
    s.data_format
  let biases ← cnn_variable "biases" [num_out_channels] (some "zeros")
    s.data_type
  let pre_activation := Tensor.bias_add conv biases s.data_format
  let conv1 ← _activation pre_activation activation_method
  let s := { s with top_layer := conv1, num_top_channels := num_out_channels }
  return ((s.top_layer, s.num_top_channels), s)

/-- Embedding of `CNNBuilder.dropout(self, keep_prob=0.5)`: outside the
training phase the keep probability is overwritten with 1.0 before the
framework call; `num_top_channels` is not assigned. -/
def dropout (s : CNNBuilder) (keep_prob : ℚ) : (Tensor × Int) × CNNBuilder :=
  let (name, s) := _get_name s "dropout"
  let keep_prob := if ¬ s.is_train_phase then 1 else keep_prob
  let dropped := Tensor.dropoutT s.top_layer keep_prob name
  let s := { s with top_layer := dropped }
  ((s.top_layer, s.num_top_channels), s)

/-- Embedding of `CNNBuilder.fully_connected`; the Python default is
`activation_method='relu'`. -/
noncomputable def fully_connected (s : CNNBuilder) (num_out_channels : Int)
    (activation_method : Option String) :
    Except PyErr ((Tensor × Int) × CNNBuilder) := do
  let (_name, s) := _get_name s "fc"
  let shape : List Int := [s.num_top_channels, num_out_channels]
  let weights ← cnn_variable "weights" shape (some "glorot_uniform")
    s.data_type
  let biases ← cnn_variable "biases" [num_out_channels] (some "zeros")
    s.data_type
  let pre_activation := Tensor.add (Tensor.matmul s.top_layer weights) biases
  let fc ← _activation pre_activation activation_method
  let s := { s with top_layer := fc, num_top_channels := num_out_channels }
  return ((s.top_layer, s.num_top_channels), s)

/-- Embedding of `CNNBuilder.max_pooling`; Python defaults are
`vertical_stride=2`, `horizontal_stride=2`.  The window and strides are
passed to `tf.nn.max_pool` exactly as the literals `[1, pool_height,
pool_width, 1]` and `[1, vertical_stride, horizontal_stride, 1]`, with no
data-format-dependent reordering in the source. -/
def max_pooling (s : CNNBuilder) (pool_height pool_width : Int)
    (vertical_stride horizontal_stride : Int) : (Tensor × Int) × CNNBuilder :=
  let (name, s) := _get_name s "mpool"
  let window : List Int := [1, pool_height, pool_width, 1]
  let strides : List Int := [1, vertical_stride, horizontal_stride, 1]
  let pool := Tensor.max_pool s.top_layer window strides s.padding_mode
    s.data_format name
  let s := { s with top_layer := pool }
  ((s.top_layer, s.num_top_channels), s)

/-- Embedding of `CNNBuilder.normalization`; all four parameters default to
`None` in Python. -/
def normalization (s : CNNBuilder) (depth_radius bias alpha beta : Option ℚ) :
    (Tensor × Int) × CNNBuilder :=
  let (name, s) := _get_name s "norm"
  let norm := Tensor.lrn s.top_layer depth_radius bias alpha beta name
  let s := { s with top_layer := norm }
  ((s.top_layer, s.num_top_channels), s)

/-- Embedding of `CNNBuilder.reshape(self, shape)`: the new channel count is
the literal last entry `shape[-1]` of the requested shape (even when that
entry is the wildcard -1). -/
def reshape (s : CNNBuilder) (shape : List Int) : (Tensor × Int) × CNNBuilder :=
  let (name, s) := _get_name s "reshape"
  let reshaped := Tensor.reshapeT s.top_layer shape name
  let s := { s with top_layer := reshaped,
                    num_top_channels := shape.getD (shape.length - 1) 0 }
  ((s.top_layer, s.num_top_channels), s)

/-- Embedding of `SimpleModel.inference(self, cnn_builder)` from
`cnn/simple_model.py`: the fixed layer sequence, threading the builder state
and returning the value of the final `fully_connected` call.  Python default
arguments are spelled out. -/
noncomputable def inference (batch_size num_classes : Int) (b : CNNBuilder) :
    Except PyErr ((Tensor × Int) × CNNBuilder) := do
  let (_, b) ← convolution b 64 3 3 1 1 (some "relu")
  let (_, b) ← convolution b 64 3 3 1 1 (some "relu")
  let (_, b) := normalization b none none none none
  let (_, b) := max_pooling b 3 3 2 2
  let (_, b) ← convolution b 128 5 5 1 1 (some "relu")
  let (_, b) := normalization b none none none none
  let (_, b) := max_pooling b 3 3 2 2
  let (_, b) := reshape b [batch_size, -1]
  let (_, b) ← fully_connected b 512 (some "relu")
  let (_, b) ← fully_connected b 256 (some "relu")
  fully_connected b num_classes (some "relu")

/-- Shape semantics of the framework's `tf.reshape`: entries of the requested
shape are kept, and a `-1` wildcard entry is replaced by the number of input
elements divided by the product of the remaining entries. -/
def reshapeShape (numElements : Int) (shape : List Int) : List Int :=
  let known := (shape.filter (fun d => d ≠ -1)).prod
  shape.map (fun d => if d = -1 then numElements / known else d)

/-- Strides recorded in the `conv2d` node reachable through the
activation/bias wrappers that `convolution` builds around it. -/
def convNodeStrides : Tensor → Option (List Int)
  | .conv2d _ _ strides _ _ => some strides
  | .bias_add v _ _ => convNodeStrides v
  | .relu t => convNodeStrides t
  | .sigmoid t => convNodeStrides t
  | .softmax t => convNodeStrides t
  | .tanh t => convNodeStrides t
  | _ => none

/-- Window recorded in a `max_pool` node. -/
def poolWindowOf : Tensor → Option (List Int)
  | .max_pool _ window _ _ _ _ => some window
  | _ => none

/-- Strides recorded in a `max_pool` node. -/
def poolStridesOf : Tensor → Option (List Int)
  | .max_pool _ _ strides _ _ _ => some strides
  | _ => none

/-- Keep probability recorded in a framework dropout node. -/
def dropoutKeepProbOf : Tensor → Option ℚ
  | .dropoutT _ keep_prob _ => some keep_prob
  | _ => none

/-- The returned cursor of a builder method agrees with the state stored in
the builder immediately after the call. -/
def cursorMatches (r : (Tensor × Int) × CNNBuilder) : Prop :=
  r.1 = (r.2.top_layer, r.2.num_top_channels)

/-- `cursorMatches` lifted to the fallible builder methods: every normal
return carries a cursor equal to the stored one. -/
def cursorMatchesE (e : Except PyErr ((Tensor × Int) × CNNBuilder)) : Prop :=
  ∀ r, e = Except.ok r → cursorMatches r

/-- Spec formula for the glorot fan-in: `shape[-2]` (or `shape[-1]` when the
shape has exactly one dimension) times the product of `shape[:-2]`. -/
def fanInSpec (shape : List Int) : Int :=
  (if shape.length = 1 then shape.getLast?.getD 0
   else shape.getD (shape.length - 2) 0) *
    (shape.take (shape.length - 2)).prod

/-- Spec formula for the glorot fan-out: `shape[-1]` times the product of
`shape[:-2]`. -/
def fanOutSpec (shape : List Int) : Int :=
  (shape.getLast?.getD 0) * (shape.take (shape.length - 2)).prod

/-- One builder call as listed by the spec's description of
`SimpleModel.inference`; arguments not listed there take the Python
defaults. -/
inductive BuilderCall where
  | convolutionC (num_out_channels filter_height filter_width : Int)
  | normalizationC
  | max_poolingC (pool_height pool_width : Int)
  | reshapeC (shape : List Int)
  | fully_connectedC (num_out_channels : Int)

/-- Apply one listed builder call, with the Python default arguments of the
methods spelled out. -/
noncomputable def applyCall (s : CNNBuilder) :
    BuilderCall → Except PyErr ((Tensor × Int) × CNNBuilder)
  | .convolutionC c fh fw => convolution s c fh fw 1 1 (some "relu")
  | .normalizationC => .ok (normalization s none none none none)
  | .max_poolingC ph pw => .ok (max_pooling s ph pw 2 2)
  | .reshapeC shape => .ok (reshape s shape)
  | .fully_connectedC n => fully_connected s n (some "relu")

/-- Run a list of builder calls in order, returning the value of the last
call (and the current cursor for the empty list). -/
noncomputable def runCalls (s : CNNBuilder) :
    List BuilderCall → Except PyErr ((Tensor × Int) × CNNBuilder)
  | [] => .ok ((s.top_layer, s.num_top_channels), s)
  | [c] => applyCall s c
  | c :: cs => do
    let (_, s') ← applyCall s c
    runCalls s' cs

/-- Run `_get_name` over a list of name stems, collecting the returned
names. -/
def runGetNames (s : CNNBuilder) : List String → List String × CNNBuilder
  | [] => ([], s)
  | p :: ps =>
    let (n, s') := _get_name s p
    let (ns, s'') := runGetNames s' ps
    (n :: ns, s'')

/-! Helper lemmas shared by the proofs below. -/

/-- Binding a normal return in the `Except` monad applies the continuation. -/
theorem ok_bind {α β : Type} (a : α) (f : α → Except PyErr β) :
    (Except.ok a : Except PyErr α) >>= f = f a := rfl

/-- A bind that returns normally factors into a normal return and a normal
continuation. -/
theorem bind_eq_ok {α β : Type} {x : Except PyErr α} {f : α → Except PyErr β}
    {b : β} (h : x >>= f = .ok b) : ∃ a, x = .ok a ∧ f a = .ok b := by
  cases x with
  | error e => exact Except.noConfusion h
  | ok a => exact ⟨a, rfl, h⟩

/-- Activation wrappers are transparent to `convNodeStrides`: a successful
`_activation` call preserves the strides of the underlying `conv2d` node. -/
theorem activation_strides {t : Tensor} {m : Option String} {r : Tensor}
    (h : _activation t m = .ok r) : convNodeStrides r = convNodeStrides t := by
  rcases m with _ | s
  · simp [_activation] at h
    subst h; rfl
  · by_cases h0 : s = "" <;>
    by_cases h1 : s = "linear" <;>
    by_cases h2 : s = "relu" <;>
    by_cases h3 : s = "sigmoid" <;>
    by_cases h4 : s = "softmax" <;>
    by_cases h5 : s = "tanh" <;>
    simp_all [_activation, convNodeStrides] <;>
    (subst h; simp [convNodeStrides])

/-- The `'relu'` lookup in `_activation` succeeds with a `relu` node. -/
theorem activation_relu (t : Tensor) :
    _activation t (some "relu") = .ok (.relu t) := rfl

/-- A concrete builder in its freshly constructed state: a 2x3x4x4 input
tensor, 4 input channels, training phase, and the Python default arguments
`'SAME'`, `'NCHW'`, floating-point data type. -/
def exampleBuilder : CNNBuilder :=
  CNNBuilder.init (.input [2, 3, 4, 4]) 4 true "SAME" "NCHW"
    { is_floating := true }

/-- C1: the claim states that after `reshape(shape)` the recorded channel
count equals the actual size of the last dimension of the reshaped tensor,
including for a trailing wildcard -1.  The code instead stores the literal
`shape[-1]`: on a 2x3x4x4 input (96 elements) reshaped to `[2, -1]` it
records -1, while the framework's reshape produces last dimension 48. -/
theorem reshape_wildcard_records_minus_one :
    (reshape exampleBuilder [2, -1]).2.num_top_channels = -1 ∧
    (reshape exampleBuilder [2, -1]).2.top_layer =
      Tensor.reshapeT (Tensor.input [2, 3, 4, 4]) [2, -1] "reshape0" ∧
    (reshapeShape (([2, 3, 4, 4] : List Int).prod) [2, -1]).getLast?.getD 0
      = 48 ∧
    ((-1 : Int) ≠ 48) :=
  ⟨rfl, rfl, by decide, by decide⟩

/-- C2: the claim states that with data format `'NCHW'` the pooling window
`[1, pool_height, pool_width, 1]` and strides `[1, vertical_stride,
horizontal_stride, 1]` are reordered into NCHW order before the framework's
`max_pool` call.  The code performs no such reordering: on an NCHW builder,
`max_pooling(3, 3)` passes window `[1, 3, 3, 1]` and strides `[1, 2, 2, 1]`
verbatim, not the claimed `[1, 1, 3, 3]` and `[1, 1, 2, 2]`. -/
theorem max_pooling_window_not_reordered :
    exampleBuilder.data_format = "NCHW" ∧
    poolWindowOf (max_pooling exampleBuilder 3 3 2 2).2.top_layer
      = some [1, 3, 3, 1] ∧
    poolStridesOf (max_pooling exampleBuilder 3 3 2 2).2.top_layer
      = some [1, 2, 2, 1] ∧
    ([1, 3, 3, 1] : List Int) ≠ [1, 1, 3, 3] ∧
    ([1, 2, 2, 1] : List Int) ≠ [1, 1, 2, 2] :=
  ⟨rfl, rfl, rfl, by decide, by decide⟩

/-- C3: the claim states that for a non-floating-point data type
`cnn_variable` raises a `TypeError` to the caller.  The code instead
RETURNS the `TypeError` object as its normal value (`return TypeError(...)`
rather than `raise`): the call yields a normal `.ok` result carrying the
error object, and no exception is propagated.  No `get_variable` call is
made, as the returned value is the error object rather than a variable. -/
theorem cnn_variable_returns_type_error :
    cnn_variable "filter" [3, 3, 1, 64] (some "glorot_uniform")
        { is_floating := false }
      = Except.ok
          (Tensor.pyTypeError
            "Variables must be initialized as floating point.") ∧
    ∀ e : PyErr,
      cnn_variable "filter" [3, 3, 1, 64] (some "glorot_uniform")
          { is_floating := false }
        ≠ Except.error e := by
  refine ⟨rfl, ?_⟩
  intro e h
  rw [show cnn_variable "filter" [3, 3, 1, 64] (some "glorot_uniform")
        { is_floating := false }
      = Except.ok (Tensor.pyTypeError
          "Variables must be initialized as floating point.") from rfl] at h
  exact Except.noConfusion h

/-- C4: `convolution` translates its stride parameters before the framework
`conv2d` call: the `conv2d` node receives strides `[1, 1, v, h]` when the
builder's data format is `'NCHW'` and `[1, v, h, 1]` for any other data
format, whatever the activation method; with the default `'relu'` activation
the call succeeds and its result exhibits exactly those strides. -/
theorem convolution_stride_translation (s : CNNBuilder) (c fh fw v h : Int)
    (m : Option String) :
    ((convolution s c fh fw v h m).toOption.elim True fun r =>
      convNodeStrides r.2.top_layer =
        some (if s.data_format = "NCHW" then [1, 1, v, h]
              else [1, v, h, 1])) ∧
    ∃ r, convolution s c fh fw v h (some "relu") = Except.ok r ∧
      convNodeStrides r.2.top_layer =
        some (if s.data_format = "NCHW" then [1, 1, v, h]
              else [1, v, h, 1]) := by
  constructor
  · cases hc : convolution s c fh fw v h m with
    | error e => exact trivial
    | ok r =>
      simp only [Except.toOption, Option.elim]
      cases hb : s.data_type.is_floating <;>
        simp only [convolution] at hc <;>
        simp [cnn_variable, _initializer, _get_name, hb, ok_bind] at hc
      all_goals
        obtain ⟨t, hact, hf⟩ := bind_eq_ok hc
        simp only [Except.ok.injEq] at hf
        subst hf
        have hstr := activation_strides hact
        simp [hstr, convNodeStrides]
  · cases hb : s.data_type.is_floating <;>
      by_cases hd : s.data_format = "NCHW" <;>
      simp [convolution, cnn_variable, _initializer, _get_name, hb, hd,
        ok_bind, activation_relu, convNodeStrides, List.getD]

/-- C5: lookups into the fixed option tables fail exactly on unrecognized
keys: `_activation` raises `KeyError` for every non-empty method outside its
five-entry table, `_initializer` raises `KeyError` for every non-empty
method outside its two-entry table, and a falsy method (`None` or the empty
string) does not fail but is replaced by the default `'linear'`
(activation, returning the input unchanged) or `'zeros'` (initializer). -/
theorem table_lookup_failures (t : Tensor) (shape : List Int) (dt : DataType)
    (ma mi : String) (hma : ma ≠ "") (hmi : mi ≠ "")
    (ha : ma ∉ ["linear", "relu", "sigmoid", "softmax", "tanh"])
    (hi : mi ∉ ["glorot_uniform", "zeros"]) :
    _activation t (some ma) = .error (.keyError ma) ∧
    _initializer shape dt (some mi) = .error (.keyError mi) ∧
    _activation t none = .ok t ∧
    _activation t (some "") = .ok t ∧
    _initializer shape dt none = .ok (.zeros dt) ∧
    _initializer shape dt (some "") = .ok (.zeros dt) := by
  simp only [List.mem_cons, List.mem_singleton, not_or] at ha hi
  obtain ⟨h1, h2, h3, h4, h5⟩ := ha
  obtain ⟨h6, h7⟩ := hi
  refine ⟨?_, ?_, rfl, rfl, rfl, rfl⟩ <;>
    simp [_activation, _initializer, hma, hmi, h1, h2, h3, h4, h5, h6, h7]

/-- Witness for C5 at the concrete unrecognized keys `'swish'` and
`'ones'`. -/
theorem table_lookup_failures_witness :
    (("swish" : String) ≠ "") ∧ (("ones" : String) ≠ "") ∧
    (("swish" : String)
      ∉ ["linear", "relu", "sigmoid", "softmax", "tanh"]) ∧
    (("ones" : String) ∉ ["glorot_uniform", "zeros"]) ∧
    (_activation (.input [1]) (some "swish")
        = .error (.keyError "swish") ∧
      _initializer [2] { is_floating := true } (some "ones")
        = .error (.keyError "ones") ∧
      _activation (.input [1]) none = .ok (.input [1]) ∧
      _activation (.input [1]) (some "") = .ok (.input [1]) ∧
      _initializer [2] { is_floating := true } none
        = .ok (.zeros { is_floating := true }) ∧
      _initializer [2] { is_floating := true } (some "")
        = .ok (.zeros { is_floating := true })) :=
  ⟨by decide, by decide, by decide, by decide,
    table_lookup_failures (.input [1]) [2] { is_floating := true }
      "swish" "ones" (by decide) (by decide) (by decide) (by decide)⟩

/-- C6: `SimpleModel.inference` coincides, for every batch size, class
count and builder state, with running exactly the listed builder calls in
order -- convolution(64,3,3), convolution(64,3,3), normalization,
max_pooling(3,3), convolution(128,5,5), normalization, max_pooling(3,3),
reshape([batch_size,-1]), fully_connected(512), fully_connected(256),
fully_connected(num_classes) -- and it returns the pair produced by the
final fully_connected call, whose channel count is `num_classes`. -/
theorem inference_layer_sequence (batch_size num_classes : Int)
    (b : CNNBuilder) :
    inference batch_size num_classes b = runCalls b
      [ .convolutionC 64 3 3, .convolutionC 64 3 3, .normalizationC,
        .max_poolingC 3 3, .convolutionC 128 5 5, .normalizationC,
        .max_poolingC 3 3, .reshapeC [batch_size, -1],
        .fully_connectedC 512, .fully_connectedC 256,
        .fully_connectedC num_classes ] ∧
    ∃ t s', inference batch_size num_classes b
      = .ok ((t, num_classes), s') := by
  refine ⟨rfl, ?_⟩
  cases hb : b.data_type.is_floating <;>
    simp [inference, convolution, fully_connected, normalization, max_pooling,
      reshape, dropout, cnn_variable, _initializer, _activation, _get_name,
      hb, ok_bind]

/-- List fold of multiplication starting from `a` is `a` times the
product. -/
theorem foldl_mul_eq (l : List Int) (a : Int) :
    l.foldl (· * ·) a = a * l.prod := by
  induction l generalizing a with
  | nil => simp
  | cons x xs ih => simp [ih, List.prod_cons]; ring

/-- C7: for the `'glorot_uniform'` method, `_initializer` returns a uniform
initializer on `[-b, b]` with `b = (6 / (fan_in + fan_out))^0.5`, where
`fan_out = shape[-1] * prod(shape[:-2])` and
`fan_in = (shape[-2] if len(shape) > 1 else shape[-1]) * prod(shape[:-2])`;
for the `'zeros'` method it returns a zero-fill initializer. -/
theorem glorot_uniform_initializer (shape : List Int) (dt : DataType)
    (hs : shape ≠ []) :
    _initializer shape dt (some "glorot_uniform") =
      .ok (.randomUniform
        (-(Real.sqrt (6 / ((fanInSpec shape + fanOutSpec shape : Int) : ℝ))))
        (Real.sqrt (6 / ((fanInSpec shape + fanOutSpec shape : Int) : ℝ)))
        dt) ∧
    _initializer shape dt (some "zeros") = .ok (.zeros dt) := by
  refine ⟨?_, rfl⟩
  have h0 : shape.length ≠ 0 := fun hh => hs (List.length_eq_zero.mp hh)
  by_cases h1 : shape.length = 1
  · simp [_initializer, fanInSpec, fanOutSpec, foldl_mul_eq, h1,
      List.getLast?_eq_getElem?]
  · have hlen : shape.length > 1 := by omega
    simp [_initializer, fanInSpec, fanOutSpec, foldl_mul_eq, h1, hlen,
      List.getLast?_eq_getElem?]

/-- Witness for C7 at the concrete weight shape `[3, 4]`. -/
theorem glorot_uniform_initializer_witness :
    (([3, 4] : List Int) ≠ []) ∧
    (_initializer [3, 4] { is_floating := true } (some "glorot_uniform") =
        .ok (.randomUniform
          (-(Real.sqrt
            (6 / ((fanInSpec [3, 4] + fanOutSpec [3, 4] : Int) : ℝ))))
          (Real.sqrt
            (6 / ((fanInSpec [3, 4] + fanOutSpec [3, 4] : Int) : ℝ)))
          { is_floating := true }) ∧
      _initializer [3, 4] { is_floating := true } (some "zeros") =
        .ok (.zeros { is_floating := true })) :=
  ⟨by decide,
    glorot_uniform_initializer [3, 4] { is_floating := true } (by decide)⟩

/-! Decimal formatting: `'{0:s}{1:d}'.format(prefix, count)` appends the
decimal representation of the count, embedded as `Nat.repr`.  The following
lemmas show that decimal representations of distinct counts are distinct. -/

/-- Numeric value of a decimal digit character. -/
def digitVal (c : Char) : Nat := c.toNat - 48

/-- The digit characters emitted for values below ten decode to the value
they encode. -/
theorem digitVal_digitChar (d : Nat) (h : d < 10) :
    digitVal (Nat.digitChar d) = d := by
  interval_cases d <;> rfl

/-- Folding the decimal value over the digit list produced by
`Nat.toDigitsCore` recovers the encoded number in front of the
accumulator list. -/
theorem foldl_toDigitsCore (fuel : Nat) :
    ∀ (n : Nat) (ds : List Char), n < 10 ^ fuel →
    (Nat.toDigitsCore 10 fuel n ds).foldl (fun a c => a * 10 + digitVal c) 0
      = ds.foldl (fun a c => a * 10 + digitVal c) n := by
  induction fuel with
  | zero =>
    intro n ds h
    simp at h
    subst h
    rfl
  | succ fuel ih =>
    intro n ds h
    simp only [Nat.toDigitsCore]
    by_cases hz : n / 10 = 0
    · have hn10 : n < 10 := by omega
      simp only [hz, if_true, List.foldl_cons]
      rw [digitVal_digitChar (n % 10) (Nat.mod_lt _ (by norm_num))]
      rw [Nat.zero_mul, Nat.zero_add, Nat.mod_eq_of_lt hn10]
    · have hb : n / 10 < 10 ^ fuel := by
        rw [Nat.div_lt_iff_lt_mul (by norm_num)]
        calc n < 10 ^ (fuel + 1) := h
        _ = 10 ^ fuel * 10 := by ring
      simp only [hz, if_false]
      rw [ih (n / 10) (Nat.digitChar (n % 10) :: ds) hb]
      simp only [List.foldl_cons]
      rw [digitVal_digitChar (n % 10) (Nat.mod_lt _ (by norm_num))]
      have hnm : n / 10 * 10 + n % 10 = n := by omega
      rw [hnm]

/-- The decimal digit string of a natural number decodes to that number. -/
theorem digitsVal_toDigits (n : Nat) :
    (Nat.toDigits 10 n).foldl (fun a c => a * 10 + digitVal c) 0 = n := by
  have h : n < 10 ^ (n + 1) :=
    lt_of_lt_of_le (Nat.lt_pow_self (by norm_num) n)
      (Nat.pow_le_pow_right (by norm_num) (Nat.le_succ n))
  exact foldl_toDigitsCore (n + 1) n [] h

/-- Distinct natural numbers have distinct decimal representations. -/
theorem nat_repr_injective {m n : Nat} (h : Nat.repr m = Nat.repr n) :
    m = n := by
  have hd : Nat.toDigits 10 m = Nat.toDigits 10 n := List.asString_inj.mp h
  calc m = (Nat.toDigits 10 m).foldl (fun a c => a * 10 + digitVal c) 0 :=
        (digitsVal_toDigits m).symm
    _ = (Nat.toDigits 10 n).foldl (fun a c => a * 10 + digitVal c) 0 := by
        rw [hd]
    _ = n := digitsVal_toDigits n

/-- Appending to a common front string is cancellative. -/
theorem string_append_cancel {p a b : String} (h : p ++ a = p ++ b) :
    a = b := by
  have hd : p.data ++ a.data = p.data ++ b.data := by
    have := congrArg String.data h
    simpa [String.data_append] using this
  have hab : a.data = b.data := List.append_cancel_left hd
  cases a; cases b; exact congrArg String.mk hab

/-- Running `_get_name` over a list of name stems returns, at each position,
the stem concatenated with the decimal pre-increment count of that stem, and
leaves every per-stem counter equal to its initial value plus the number of
calls made with that stem. -/
theorem runGetNames_spec (ps : List String) (s : CNNBuilder) :
    (runGetNames s ps).1 = ps.mapIdx
      (fun k p => p ++ Nat.repr (s.layer_counts p + (ps.take k).count p)) ∧
    ∀ p, (runGetNames s ps).2.layer_counts p
      = s.layer_counts p + ps.count p := by
  induction ps generalizing s with
  | nil => simp [runGetNames]
  | cons q qs ih =>
    have hstep : runGetNames s (q :: qs)
        = let r := runGetNames
            { s with layer_counts :=
                fun p => if p = q then s.layer_counts q + 1
                         else s.layer_counts p } qs
          ((q ++ Nat.repr (s.layer_counts q)) :: r.1, r.2) := rfl
    obtain ⟨ih1, ih2⟩ := ih
      { s with layer_counts :=
          fun p => if p = q then s.layer_counts q + 1 else s.layer_counts p }
    constructor
    · rw [hstep, List.mapIdx_cons]
      refine congrArg₂ List.cons (by simp) ?_
      rw [ih1]
      have hfun : (fun k (p : String) => p ++ Nat.repr
            ((if p = q then s.layer_counts q + 1 else s.layer_counts p)
              + (qs.take k).count p))
          = (fun i (p : String) => p ++ Nat.repr
              (s.layer_counts p + (((q :: qs).take (i + 1)).count p))) := by
        funext k p
        have harg : (if p = q then s.layer_counts q + 1 else s.layer_counts p)
            + (qs.take k).count p
            = s.layer_counts p + (((q :: qs).take (k + 1)).count p) := by
          rw [List.take_succ_cons]
          by_cases hpq : p = q
          · subst hpq
            rw [List.count_cons_self]
            simp only [if_true, ite_true, reduceIte]
            omega
          · rw [List.count_cons_of_ne hpq]
            simp [hpq]
        rw [harg]
      exact congrFun (congrArg List.mapIdx hfun) qs ▸ rfl
    · intro p
      rw [hstep]
      simp only []
      rw [ih2 p]
      by_cases hpq : p = q
      · subst hpq
        rw [List.count_cons_self]
        simp only [if_true, ite_true, reduceIte]
        omega
      · rw [List.count_cons_of_ne hpq]
        simp [hpq]

/-- C8: the per-stem layer-naming counter is maintained correctly: after any
sequence of `_get_name` calls the counter of each stem equals its initial
value plus the number of calls made with that stem (so, starting from the
constructor's zeroed table, exactly the number of calls); each call returns
the stem concatenated with the decimal pre-increment count; and two distinct
calls with the same stem return distinct layer names. -/
theorem get_name_counter_invariant (s : CNNBuilder) (ps : List String)
    (i j : Nat) (hj : j < ps.length) (hij : i < j)
    (hpp : ps.getD i "" = ps.getD j "") :
    (∀ p, (runGetNames s ps).2.layer_counts p
        = s.layer_counts p + ps.count p) ∧
    (runGetNames s ps).1 = ps.mapIdx
      (fun k p => p ++ Nat.repr (s.layer_counts p + (ps.take k).count p)) ∧
    (runGetNames s ps).1.getD i "" ≠ (runGetNames s ps).1.getD j "" := by
  obtain ⟨h1, h2⟩ := runGetNames_spec ps s
  refine ⟨h2, h1, ?_⟩
  have hi : i < ps.length := lt_trans hij hj
  have hgi : (runGetNames s ps).1.getD i ""
      = ps[i] ++ Nat.repr
          (s.layer_counts ps[i] + (ps.take i).count ps[i]) := by
    rw [h1]
    simp [List.getD_eq_getElem?_getD, List.getElem?_mapIdx,
      List.getElem?_eq_getElem hi]
  have hgj : (runGetNames s ps).1.getD j ""
      = ps[j] ++ Nat.repr
          (s.layer_counts ps[j] + (ps.take j).count ps[j]) := by
    rw [h1]
    simp [List.getD_eq_getElem?_getD, List.getElem?_mapIdx,
      List.getElem?_eq_getElem hj]
  have hps : ps[i] = ps[j] := by
    have hp := hpp
    simp only [List.getD_eq_getElem?_getD, List.getElem?_eq_getElem hi,
      List.getElem?_eq_getElem hj, Option.getD_some] at hp
    exact hp
  have hcount : (ps.take i).count ps[i] < (ps.take j).count ps[i] := by
    have hsucc : (ps.take (i + 1)).count ps[i]
        = (ps.take i).count ps[i] + 1 := by
      rw [List.take_succ, List.getElem?_eq_getElem hi, List.count_append]
      simp [List.count_singleton_self]
    have hmono : (ps.take (i + 1)).count ps[i]
        ≤ (ps.take j).count ps[i] :=
      (List.take_sublist_take_left ps (by omega)).count_le _
    omega
  intro heq
  rw [hgi, hgj, ← hps] at heq
  have hrepr := string_append_cancel heq
  have hnat := nat_repr_injective hrepr
  omega

/-- Witness for C8: the stem list `["conv", "conv", "fc"]` with the repeated
stem at positions 0 and 1, run from the freshly constructed builder. -/
theorem get_name_counter_invariant_witness :
    ((1 : Nat) < (["conv", "conv", "fc"] : List String).length) ∧
    ((0 : Nat) < 1) ∧
    ((["conv", "conv", "fc"] : List String).getD 0 ""
      = (["conv", "conv", "fc"] : List String).getD 1 "") ∧
    ((∀ p, (runGetNames exampleBuilder ["conv", "conv", "fc"]).2.layer_counts
          p = exampleBuilder.layer_counts p
            + (["conv", "conv", "fc"] : List String).count p) ∧
      (runGetNames exampleBuilder ["conv", "conv", "fc"]).1
        = (["conv", "conv", "fc"] : List String).mapIdx
          (fun k p => p ++ Nat.repr (exampleBuilder.layer_counts p
            + ((["conv", "conv", "fc"] : List String).take k).count p)) ∧
      (runGetNames exampleBuilder ["conv", "conv", "fc"]).1.getD 0 ""
        ≠ (runGetNames exampleBuilder ["conv", "conv", "fc"]).1.getD 1 "") :=
  ⟨by decide, by decide, by decide,
    get_name_counter_invariant exampleBuilder ["conv", "conv", "fc"] 0 1
      (by decide) (by decide) (by decide)⟩

/-- C9: every layer-adding builder method returns exactly the pair
`(top_layer, num_top_channels)` stored in the builder immediately after the
call, so the returned cursor and the stored cursor never diverge (for the
fallible methods, on every normal return). -/
theorem builder_returns_stored_cursor (s : CNNBuilder) (layer : Tensor)
    (ch c fh fw v h n ph pw : Int) (m : Option String) (kp : ℚ)
    (dr bi al be : Option ℚ) (shape : List Int) :
    cursorMatches (add_layer s layer ch) ∧
    cursorMatchesE (convolution s c fh fw v h m) ∧
    cursorMatches (dropout s kp) ∧
    cursorMatchesE (fully_connected s n m) ∧
    cursorMatches (max_pooling s ph pw v h) ∧
    cursorMatches (normalization s dr bi al be) ∧
    cursorMatches (reshape s shape) := by
  refine ⟨rfl, ?_, rfl, ?_, rfl, rfl, rfl⟩
  · intro r hr
    cases hb : s.data_type.is_floating <;>
      simp only [convolution] at hr <;>
      simp [cnn_variable, _initializer, _get_name, hb, ok_bind] at hr
    all_goals
      obtain ⟨t, hact, hf⟩ := bind_eq_ok hr
      simp only [Except.ok.injEq] at hf
      subst hf
      rfl
  · intro r hr
    cases hb : s.data_type.is_floating <;>
      simp only [fully_connected] at hr <;>
      simp [cnn_variable, _initializer, _get_name, hb, ok_bind] at hr
    all_goals
      obtain ⟨t, hact, hf⟩ := bind_eq_ok hr
      simp only [Except.ok.injEq] at hf
      subst hf
      rfl

/-- C10: `dropout` forwards keep probability 1.0 to the framework whenever
the builder is not in the training phase -- so the result is then
independent of the caller-supplied probability -- and forwards the
caller-supplied probability unchanged in the training phase; in both cases
`num_top_channels` is unchanged. -/
theorem dropout_keep_prob_gating (s : CNNBuilder) (kp : ℚ) :
    dropout s kp = dropout s (if s.is_train_phase then kp else 1) ∧
    dropoutKeepProbOf (dropout s kp).2.top_layer
      = some (if s.is_train_phase then kp else 1) ∧
    (dropout s kp).2.num_top_channels = s.num_top_channels := by
  cases ht : s.is_train_phase <;>
    simp [dropout, _get_name, dropoutKeepProbOf, ht]

end ConvNets
